import Mathlib

/-!
Shallow embedding of `pkg/security/ebpf/c/setattr.h`:
the shared internal hook `kprobe__security_inode_setattr`, which enriches
the in-flight syscall context with the attributes touched by a
`security_inode_setattr` call (group id, access/modify timestamps) and,
for the attribute-change event kinds, captures the dentry, derives the
path key inode and triggers eager path resolution.
-/

namespace SetattrProbe

/-! ### Constants: `ia_valid` bitmask bits (from `linux/fs.h`) -/

def ATTR_GID : Nat := 1 <<< 2

def ATTR_ATIME_SET : Nat := 1 <<< 7

def ATTR_MTIME_SET : Nat := 1 <<< 8

def ATTR_TOUCH : Nat := 1 <<< 17

/-- Event kinds carried by the syscall cache (`syscall->type`); the hook
compares against `EVENT_UTIME`, `EVENT_CHMOD` and `EVENT_CHOWN`, the other
variants stand for the remaining monitored syscall families. -/
inductive event_type where
  | EVENT_OPEN
  | EVENT_MKDIR
  | EVENT_UNLINK
  | EVENT_RMDIR
  | EVENT_RENAME
  | EVENT_UTIME
  | EVENT_CHMOD
  | EVENT_CHOWN
deriving DecidableEq, Repr

/-- `struct path_key_t { u64 ino; u32 mount_id; }`; the mount id is filled
in by `kprobe/mnt_want_write`, this hook only writes `ino`. -/
structure path_key_t where
  ino : Nat
  mount_id : Nat
deriving DecidableEq, Repr

/-- The `setattr` payload embedded in the syscall cache. `dentry` is a
kernel pointer, `0` standing for NULL (the C guard `if (syscall->setattr.dentry)`
tests non-nullness). `group`, `atime`, `mtime` are write-only in this hook;
`none` models a field not yet written by it. -/
structure setattr_t where
  dentry : Nat
  path_key : path_key_t
  group : Option Nat
  atime : Option Nat
  mtime : Option Nat
deriving DecidableEq, Repr

/-- `struct syscall_cache_t`: the per-execution-unit in-flight record. -/
structure syscall_cache_t where
  type : event_type
  setattr : setattr_t
deriving DecidableEq, Repr

/-- The fields of `struct iattr` the hook reads through `bpf_probe_read`. -/
structure iattr where
  ia_valid : Nat
  ia_gid : Nat
  ia_atime : Nat
  ia_mtime : Nat
deriving DecidableEq, Repr

/-- One firing's register arguments: `PT_REGS_PARM1(ctx)` is the dentry
pointer, `PT_REGS_PARM2(ctx)` viewed as `struct iattr *` (`none` = NULL). -/
structure firing_t where
  parm1 : Nat
  iattr : Option iattr
deriving DecidableEq, Repr

/-- Result of one firing on a context: the updated cache, the
`resolve_dentry` invocation it triggered (dentry pointer and path key, if
any), and the C return value. -/
structure hook_effect where
  cache : syscall_cache_t
  resolved : Option (Nat × path_key_t)
  ret : Int
deriving DecidableEq, Repr

/-- The test on line 28 of `setattr.h`:
`syscall->type == EVENT_UTIME || syscall->type == EVENT_CHMOD || syscall->type == EVENT_CHOWN`. -/
def is_setattr_kind (t : event_type) : Prop :=
  t = event_type.EVENT_UTIME ∨ t = event_type.EVENT_CHMOD ∨ t = event_type.EVENT_CHOWN

instance (t : event_type) : Decidable (is_setattr_kind t) := by
  unfold is_setattr_kind
  infer_instance

/-- Lines 28–35 of `setattr.h`: if the event kind is one of
EVENT_UTIME / EVENT_CHMOD / EVENT_CHOWN and the dentry is not yet set,
capture the dentry from PARM1, derive the path-key inode from it
(`get_dentry_ino`, modelled by the kernel environment `ino_of`) and call
`resolve_dentry`. -/
def setattr_tail (ino_of : Nat → Nat) (parm1 : Nat)
    (syscall : syscall_cache_t) : hook_effect :=
  if is_setattr_kind syscall.type then
    if syscall.setattr.dentry ≠ 0 then
      { cache := syscall, resolved := none, ret := 0 }
    else
      let dentry := parm1
      let pk : path_key_t :=
        { ino := ino_of dentry, mount_id := syscall.setattr.path_key.mount_id }
      { cache := { syscall with
                   setattr := { syscall.setattr with dentry := dentry, path_key := pk } },
        resolved := some (dentry, pk),
        ret := 0 }
  else
    { cache := syscall, resolved := none, ret := 0 }

/-- Lines 12–37 of `setattr.h`, the body run once a context was found:
if the iattr pointer is non-NULL, read `ia_valid`; on ATTR_GID copy the
gid (unconditionally); on any time-touch bit, return early if the dentry
is already set, otherwise copy both timestamps; then fall through to the
dentry-capture step (`setattr_tail`). -/
def setattr_step (ino_of : Nat → Nat) (parm1 : Nat) (ia : Option iattr)
    (syscall : syscall_cache_t) : hook_effect :=
  match ia with
  | none => setattr_tail ino_of parm1 syscall
  | some ia =>
    let valid := ia.ia_valid
    let syscall :=
      if valid &&& ATTR_GID ≠ 0 then
        { syscall with setattr := { syscall.setattr with group := some ia.ia_gid } }
      else syscall
    if valid &&& (ATTR_TOUCH ||| ATTR_ATIME_SET ||| ATTR_MTIME_SET) ≠ 0 then
      if syscall.setattr.dentry ≠ 0 then
        { cache := syscall, resolved := none, ret := 0 }
      else
        setattr_tail ino_of parm1
          { syscall with
            setattr := { syscall.setattr with
                         atime := some ia.ia_atime, mtime := some ia.ia_mtime } }
    else
      setattr_tail ino_of parm1 syscall

/-- The execution-context store: execution unit (thread id) to in-flight
syscall record; `peek_syscall` is lookup of the calling unit. -/
def store_t := Nat → Option syscall_cache_t

/-- `peek_syscall()`: look up the calling execution unit's context. -/
def peek_syscall (store : store_t) (tid : Nat) : Option syscall_cache_t :=
  store tid

/-- The whole handler `kprobe__security_inode_setattr` at store level:
peek the active context; if none, return 0 untouched; otherwise run the
body on that context and write it back. Returns the updated store, the
triggered resolution (if any) and the C return value. -/
def kprobe__security_inode_setattr (ino_of : Nat → Nat) (store : store_t)
    (tid : Nat) (parm1 : Nat) (ia : Option iattr) :
    store_t × Option (Nat × path_key_t) × Int :=
  match peek_syscall store tid with
  | none => (store, none, 0)
  | some syscall =>
    let eff := setattr_step ino_of parm1 ia syscall
    (fun t => if t = tid then some eff.cache else store t, eff.resolved, eff.ret)

/-- A sequence of firings of the hook on one context (the per-context view
of repeated invocations for the same execution unit). -/
def run_firings (ino_of : Nat → Nat) (syscall : syscall_cache_t)
    (fs : List firing_t) : syscall_cache_t :=
  fs.foldl (fun s f => (setattr_step ino_of f.parm1 f.iattr s).cache) syscall

/-! ### Helper lemmas -/

theorem run_firings_nil (ino_of : Nat → Nat) (s : syscall_cache_t) :
    run_firings ino_of s [] = s := rfl

theorem run_firings_cons (ino_of : Nat → Nat) (s : syscall_cache_t)
    (f : firing_t) (fs : List firing_t) :
    run_firings ino_of s (f :: fs)
      = run_firings ino_of (setattr_step ino_of f.parm1 f.iattr s).cache fs := rfl

theorem run_firings_append (ino_of : Nat → Nat) (s : syscall_cache_t)
    (fs gs : List firing_t) :
    run_firings ino_of s (fs ++ gs)
      = run_firings ino_of (run_firings ino_of s fs) gs := by
  simp [run_firings, List.foldl_append]

theorem run_firings_snoc (ino_of : Nat → Nat) (s : syscall_cache_t)
    (fs : List firing_t) (f : firing_t) :
    run_firings ino_of s (fs ++ [f])
      = (setattr_step ino_of f.parm1 f.iattr (run_firings ino_of s fs)).cache := by
  rw [run_firings_append]
  rfl

/-- The capture step never touches the event kind, the group or the
timestamps and always returns 0. -/
theorem setattr_tail_fields (ino_of : Nat → Nat) (p : Nat) (s : syscall_cache_t) :
    (setattr_tail ino_of p s).cache.type = s.type ∧
    (setattr_tail ino_of p s).cache.setattr.group = s.setattr.group ∧
    (setattr_tail ino_of p s).cache.setattr.atime = s.setattr.atime ∧
    (setattr_tail ino_of p s).cache.setattr.mtime = s.setattr.mtime ∧
    (setattr_tail ino_of p s).ret = 0 := by
  unfold setattr_tail
  split
  · split <;> simp
  · simp

theorem setattr_tail_type (ino_of : Nat → Nat) (p : Nat) (s : syscall_cache_t) :
    (setattr_tail ino_of p s).cache.type = s.type :=
  (setattr_tail_fields ino_of p s).1

theorem setattr_tail_dentry_set (ino_of : Nat → Nat) (p : Nat) (s : syscall_cache_t)
    (h : s.setattr.dentry ≠ 0) :
    setattr_tail ino_of p s = { cache := s, resolved := none, ret := 0 } := by
  unfold setattr_tail
  split <;> simp_all

theorem setattr_step_type (ino_of : Nat → Nat) (p : Nat) (ia : Option iattr)
    (s : syscall_cache_t) :
    (setattr_step ino_of p ia s).cache.type = s.type := by
  cases ia with
  | none => exact setattr_tail_type ino_of p s
  | some a =>
    simp only [setattr_step]
    repeat' split
    all_goals simp [setattr_tail_type]

theorem setattr_step_dentry_set_frame (ino_of : Nat → Nat) (p : Nat) (ia : Option iattr)
    (s : syscall_cache_t) (h : s.setattr.dentry ≠ 0) :
    (setattr_step ino_of p ia s).cache.setattr.dentry = s.setattr.dentry ∧
    (setattr_step ino_of p ia s).cache.setattr.path_key = s.setattr.path_key ∧
    (setattr_step ino_of p ia s).cache.setattr.atime = s.setattr.atime ∧
    (setattr_step ino_of p ia s).cache.setattr.mtime = s.setattr.mtime ∧
    (setattr_step ino_of p ia s).resolved = none := by
  cases ia with
  | none =>
    unfold setattr_step
    rw [setattr_tail_dentry_set ino_of p s h]
    simp
  | some a =>
    simp only [setattr_step]
    repeat' split
    all_goals simp_all [setattr_tail_dentry_set]

theorem setattr_tail_skip (ino_of : Nat → Nat) (p : Nat) (s : syscall_cache_t)
    (h : ¬ is_setattr_kind s.type) :
    setattr_tail ino_of p s = { cache := s, resolved := none, ret := 0 } := by
  unfold setattr_tail
  rw [if_neg h]

theorem setattr_tail_capture (ino_of : Nat → Nat) (p : Nat) (s : syscall_cache_t)
    (hk : is_setattr_kind s.type) (hd : s.setattr.dentry = 0) :
    (setattr_tail ino_of p s).cache.setattr.dentry = p ∧
    (setattr_tail ino_of p s).cache.setattr.path_key
      = { ino := ino_of p, mount_id := s.setattr.path_key.mount_id } ∧
    (setattr_tail ino_of p s).resolved
      = some (p, { ino := ino_of p, mount_id := s.setattr.path_key.mount_id }) := by
  unfold setattr_tail
  rw [if_pos hk, if_neg (by simp [hd])]
  exact ⟨rfl, rfl, rfl⟩

theorem setattr_step_group_write (ino_of : Nat → Nat) (p : Nat) (a : iattr)
    (s : syscall_cache_t) (hg : a.ia_valid &&& ATTR_GID ≠ 0) :
    (setattr_step ino_of p (some a) s).cache.setattr.group = some a.ia_gid := by
  simp only [setattr_step]
  repeat' split
  all_goals simp_all [setattr_tail_fields, setattr_tail_dentry_set]

theorem setattr_step_time_write (ino_of : Nat → Nat) (p : Nat) (a : iattr)
    (s : syscall_cache_t) (hd : s.setattr.dentry = 0)
    (ht : a.ia_valid &&& (ATTR_TOUCH ||| ATTR_ATIME_SET ||| ATTR_MTIME_SET) ≠ 0) :
    (setattr_step ino_of p (some a) s).cache.setattr.atime = some a.ia_atime ∧
    (setattr_step ino_of p (some a) s).cache.setattr.mtime = some a.ia_mtime := by
  simp only [setattr_step]
  repeat' split
  all_goals simp_all [setattr_tail_fields]

theorem setattr_step_no_kind_frame (ino_of : Nat → Nat) (p : Nat) (ia : Option iattr)
    (s : syscall_cache_t) (hk : ¬ is_setattr_kind s.type) :
    (setattr_step ino_of p ia s).cache.setattr.dentry = s.setattr.dentry ∧
    (setattr_step ino_of p ia s).cache.setattr.path_key = s.setattr.path_key ∧
    (setattr_step ino_of p ia s).resolved = none := by
  cases ia with
  | none =>
    unfold setattr_step
    rw [setattr_tail_skip ino_of p s hk]
    simp
  | some a =>
    simp only [setattr_step]
    repeat' split
    all_goals simp_all [setattr_tail_skip]

theorem setattr_step_capture (ino_of : Nat → Nat) (p : Nat) (ia : Option iattr)
    (s : syscall_cache_t) (hk : is_setattr_kind s.type) (hd : s.setattr.dentry = 0) :
    (setattr_step ino_of p ia s).cache.setattr.dentry = p ∧
    (setattr_step ino_of p ia s).cache.setattr.path_key.ino = ino_of p ∧
    (setattr_step ino_of p ia s).resolved
      = some (p, (setattr_step ino_of p ia s).cache.setattr.path_key) := by
  cases ia with
  | none =>
    unfold setattr_step
    have h := setattr_tail_capture ino_of p s hk hd
    simp [h.1, h.2.1, h.2.2]
  | some a =>
    simp only [setattr_step]
    repeat' split
    all_goals simp_all [setattr_tail_capture]

theorem setattr_step_resolved_none (ino_of : Nat → Nat) (p : Nat) (ia : Option iattr)
    (s : syscall_cache_t) (h : ¬ (is_setattr_kind s.type ∧ s.setattr.dentry = 0)) :
    (setattr_step ino_of p ia s).resolved = none := by
  by_cases hk : is_setattr_kind s.type
  · have hd : s.setattr.dentry ≠ 0 := fun hd => h ⟨hk, hd⟩
    exact (setattr_step_dentry_set_frame ino_of p ia s hd).2.2.2.2
  · exact (setattr_step_no_kind_frame ino_of p ia s hk).2.2

theorem setattr_step_time_frame (ino_of : Nat → Nat) (p : Nat) (a : iattr)
    (s : syscall_cache_t)
    (ht : ¬ a.ia_valid &&& (ATTR_TOUCH ||| ATTR_ATIME_SET ||| ATTR_MTIME_SET) ≠ 0) :
    (setattr_step ino_of p (some a) s).cache.setattr.atime = s.setattr.atime ∧
    (setattr_step ino_of p (some a) s).cache.setattr.mtime = s.setattr.mtime := by
  simp only [setattr_step]
  repeat' split
  all_goals simp_all [setattr_tail_fields]

theorem setattr_step_times_together (ino_of : Nat → Nat) (p : Nat) (ia : Option iattr)
    (s : syscall_cache_t) :
    ((setattr_step ino_of p ia s).cache.setattr.atime = s.setattr.atime ∧
     (setattr_step ino_of p ia s).cache.setattr.mtime = s.setattr.mtime) ∨
    (∃ a : iattr, ia = some a ∧
     (setattr_step ino_of p ia s).cache.setattr.atime = some a.ia_atime ∧
     (setattr_step ino_of p ia s).cache.setattr.mtime = some a.ia_mtime) := by
  cases ia with
  | none =>
    exact Or.inl ⟨(setattr_tail_fields ino_of p s).2.2.1,
      (setattr_tail_fields ino_of p s).2.2.2.1⟩
  | some a =>
    by_cases ht : a.ia_valid &&& (ATTR_TOUCH ||| ATTR_ATIME_SET ||| ATTR_MTIME_SET) ≠ 0
    · by_cases hd : s.setattr.dentry = 0
      · exact Or.inr ⟨a, rfl, setattr_step_time_write ino_of p a s hd ht⟩
      · have := setattr_step_dentry_set_frame ino_of p (some a) s hd
        exact Or.inl ⟨this.2.2.1, this.2.2.2.1⟩
    · exact Or.inl (setattr_step_time_frame ino_of p a s ht)

theorem run_firings_type (ino_of : Nat → Nat) (s : syscall_cache_t)
    (fs : List firing_t) :
    (run_firings ino_of s fs).type = s.type := by
  induction fs generalizing s with
  | nil => rfl
  | cons f fs ih => rw [run_firings_cons, ih, setattr_step_type]

theorem run_firings_dentry_set_frame (ino_of : Nat → Nat) (s : syscall_cache_t)
    (fs : List firing_t) (h : s.setattr.dentry ≠ 0) :
    (run_firings ino_of s fs).setattr.dentry = s.setattr.dentry ∧
    (run_firings ino_of s fs).setattr.path_key = s.setattr.path_key := by
  induction fs generalizing s with
  | nil => exact ⟨rfl, rfl⟩
  | cons f fs ih =>
    rw [run_firings_cons]
    have hf := setattr_step_dentry_set_frame ino_of f.parm1 f.iattr s h
    have h2 : (setattr_step ino_of f.parm1 f.iattr s).cache.setattr.dentry ≠ 0 := by
      rw [hf.1]; exact h
    have hrec := ih _ h2
    exact ⟨by rw [hrec.1, hf.1], by rw [hrec.2, hf.2.1]⟩

theorem run_firings_no_kind_frame (ino_of : Nat → Nat) (s : syscall_cache_t)
    (fs : List firing_t) (hk : ¬ is_setattr_kind s.type) :
    (run_firings ino_of s fs).setattr.dentry = s.setattr.dentry ∧
    (run_firings ino_of s fs).setattr.path_key = s.setattr.path_key := by
  induction fs generalizing s with
  | nil => exact ⟨rfl, rfl⟩
  | cons f fs ih =>
    rw [run_firings_cons]
    have hf := setattr_step_no_kind_frame ino_of f.parm1 f.iattr s hk
    have hk2 : ¬ is_setattr_kind (setattr_step ino_of f.parm1 f.iattr s).cache.type := by
      rw [setattr_step_type]; exact hk
    have hrec := ih _ hk2
    exact ⟨by rw [hrec.1, hf.1], by rw [hrec.2, hf.2.1]⟩


/-! ### Claims -/

/-- Claim C2: for every firing in which the iattr view is readable and its
`ia_valid` mask has the ATTR_GID bit set, the hook copies `ia_gid` into the
context's `group` field unconditionally, overwriting any previous value
(the statement holds for every prior context state `s`). -/
theorem C2_group_copied_unconditionally (ino_of : Nat → Nat) (p : Nat) (a : iattr)
    (s : syscall_cache_t) (hg : a.ia_valid &&& ATTR_GID ≠ 0) :
    (setattr_step ino_of p (some a) s).cache.setattr.group = some a.ia_gid :=
  setattr_step_group_write ino_of p a s hg

/-- Claim C2, witness: a context whose `group` already holds 5 ends up with
the firing's gid 1000. -/
theorem C2_group_copied_unconditionally_witness :
    (setattr_step (fun d => d) 5
        (some { ia_valid := 4, ia_gid := 1000, ia_atime := 7, ia_mtime := 8 })
        { type := event_type.EVENT_CHOWN,
          setattr := { dentry := 0, path_key := { ino := 0, mount_id := 3 },
                       group := some 5, atime := none, mtime := none } }).cache.setattr.group
      = some 1000 :=
  C2_group_copied_unconditionally (fun d => d) 5
    { ia_valid := 4, ia_gid := 1000, ia_atime := 7, ia_mtime := 8 }
    { type := event_type.EVENT_CHOWN,
      setattr := { dentry := 0, path_key := { ino := 0, mount_id := 3 },
                   group := some 5, atime := none, mtime := none } }
    (by decide)

/-- Claim C1, counterexample: the `group` field is NOT first-writer-wins.
On a fresh chown context, a firing with gid 1000 followed by a firing with
gid 2000 leaves `group = 2000`, not the first firing's 1000. -/
theorem C1_group_first_writer_counterexample :
    (run_firings (fun d => d)
        { type := event_type.EVENT_CHOWN,
          setattr := { dentry := 0, path_key := { ino := 0, mount_id := 3 },
                       group := none, atime := none, mtime := none } }
        [{ parm1 := 42, iattr := some { ia_valid := 4, ia_gid := 1000, ia_atime := 0, ia_mtime := 0 } }]).setattr.group
      = some 1000 ∧
    (run_firings (fun d => d)
        { type := event_type.EVENT_CHOWN,
          setattr := { dentry := 0, path_key := { ino := 0, mount_id := 3 },
                       group := none, atime := none, mtime := none } }
        [{ parm1 := 42, iattr := some { ia_valid := 4, ia_gid := 1000, ia_atime := 0, ia_mtime := 0 } },
         { parm1 := 42, iattr := some { ia_valid := 4, ia_gid := 2000, ia_atime := 0, ia_mtime := 0 } }]).setattr.group
      = some 2000 ∧
    (run_firings (fun d => d)
        { type := event_type.EVENT_CHOWN,
          setattr := { dentry := 0, path_key := { ino := 0, mount_id := 3 },
                       group := none, atime := none, mtime := none } }
        [{ parm1 := 42, iattr := some { ia_valid := 4, ia_gid := 1000, ia_atime := 0, ia_mtime := 0 } },
         { parm1 := 42, iattr := some { ia_valid := 4, ia_gid := 2000, ia_atime := 0, ia_mtime := 0 } }]).setattr.group
      ≠ (run_firings (fun d => d)
        { type := event_type.EVENT_CHOWN,
          setattr := { dentry := 0, path_key := { ino := 0, mount_id := 3 },
                       group := none, atime := none, mtime := none } }
        [{ parm1 := 42, iattr := some { ia_valid := 4, ia_gid := 1000, ia_atime := 0, ia_mtime := 0 } }]).setattr.group :=
  ⟨by decide, by decide, by decide⟩

/-- Claim C1 (amended): for every sequence of firings on a context, the
`group` field afterwards equals the group id of the LAST firing that
carried the valid ATTR_GID bit — each such firing overwrites it. -/
theorem C1_group_last_writer_wins (ino_of : Nat → Nat) (s : syscall_cache_t)
    (fs : List firing_t) (f : firing_t) (a : iattr)
    (hia : f.iattr = some a) (hg : a.ia_valid &&& ATTR_GID ≠ 0) :
    (run_firings ino_of s (fs ++ [f])).setattr.group = some a.ia_gid := by
  rw [run_firings_snoc, hia]
  exact setattr_step_group_write ino_of f.parm1 a _ hg

/-- Claim C1 (amended), witness: after gid-1000 then gid-2000 firings the
group is the last one, 2000. -/
theorem C1_group_last_writer_wins_witness :
    (run_firings (fun d => d)
        { type := event_type.EVENT_CHOWN,
          setattr := { dentry := 0, path_key := { ino := 0, mount_id := 3 },
                       group := none, atime := none, mtime := none } }
        ([{ parm1 := 42, iattr := some { ia_valid := 4, ia_gid := 1000, ia_atime := 0, ia_mtime := 0 } }]
          ++ [{ parm1 := 42, iattr := some { ia_valid := 4, ia_gid := 2000, ia_atime := 0, ia_mtime := 0 } }])).setattr.group
      = some 2000 :=
  C1_group_last_writer_wins (fun d => d)
    { type := event_type.EVENT_CHOWN,
      setattr := { dentry := 0, path_key := { ino := 0, mount_id := 3 },
                   group := none, atime := none, mtime := none } }
    [{ parm1 := 42, iattr := some { ia_valid := 4, ia_gid := 1000, ia_atime := 0, ia_mtime := 0 } }]
    { parm1 := 42, iattr := some { ia_valid := 4, ia_gid := 2000, ia_atime := 0, ia_mtime := 0 } }
    { ia_valid := 4, ia_gid := 2000, ia_atime := 0, ia_mtime := 0 }
    rfl (by decide)

/-- Claim C3, counterexample: the first-firing-wins scenario fails for a
context whose kind is not one of the three attribute kinds (here
EVENT_OPEN): two time-touch firings with timestamps (1,2) then (3,4) leave
the LAST firing's values, because the dentry guard never closes. -/
theorem C3_timestamps_first_firing_counterexample :
    (run_firings (fun d => d)
        { type := event_type.EVENT_OPEN,
          setattr := { dentry := 0, path_key := { ino := 0, mount_id := 3 },
                       group := none, atime := none, mtime := none } }
        [{ parm1 := 42, iattr := some { ia_valid := 131072, ia_gid := 0, ia_atime := 1, ia_mtime := 2 } }]).setattr.atime
      = some 1 ∧
    (run_firings (fun d => d)
        { type := event_type.EVENT_OPEN,
          setattr := { dentry := 0, path_key := { ino := 0, mount_id := 3 },
                       group := none, atime := none, mtime := none } }
        [{ parm1 := 42, iattr := some { ia_valid := 131072, ia_gid := 0, ia_atime := 1, ia_mtime := 2 } },
         { parm1 := 42, iattr := some { ia_valid := 131072, ia_gid := 0, ia_atime := 3, ia_mtime := 4 } }]).setattr.atime
      = some 3 ∧
    (run_firings (fun d => d)
        { type := event_type.EVENT_OPEN,
          setattr := { dentry := 0, path_key := { ino := 0, mount_id := 3 },
                       group := none, atime := none, mtime := none } }
        [{ parm1 := 42, iattr := some { ia_valid := 131072, ia_gid := 0, ia_atime := 1, ia_mtime := 2 } },
         { parm1 := 42, iattr := some { ia_valid := 131072, ia_gid := 0, ia_atime := 3, ia_mtime := 4 } }]).setattr.mtime
      = some 4 ∧
    some (3 : Nat) ≠ some 1 :=
  ⟨by decide, by decide, by decide, by decide⟩

/-- Claim C3 (amended): for a context whose kind is one of
EVENT_UTIME / EVENT_CHMOD / EVENT_CHOWN, with the dentry not yet populated
and a non-null dentry argument in the first firing, two time-touch firings
leave the FIRST firing's timestamps (the first firing also captures the
dentry, closing the guard); and in general any firing on a context whose
dentry is already populated leaves both timestamps unchanged. -/
theorem C3_timestamps_first_firing_wins (ino_of : Nat → Nat) (s : syscall_cache_t)
    (f1 f2 : firing_t) (a1 a2 : iattr)
    (hk : is_setattr_kind s.type) (hd : s.setattr.dentry = 0) (hp : f1.parm1 ≠ 0)
    (h1 : f1.iattr = some a1) (h2 : f2.iattr = some a2)
    (ht1 : a1.ia_valid &&& (ATTR_TOUCH ||| ATTR_ATIME_SET ||| ATTR_MTIME_SET) ≠ 0)
    (_ht2 : a2.ia_valid &&& (ATTR_TOUCH ||| ATTR_ATIME_SET ||| ATTR_MTIME_SET) ≠ 0) :
    ((run_firings ino_of s [f1, f2]).setattr.atime = some a1.ia_atime ∧
     (run_firings ino_of s [f1, f2]).setattr.mtime = some a1.ia_mtime) ∧
    (∀ (q : Nat) (ib : Option iattr) (c : syscall_cache_t), c.setattr.dentry ≠ 0 →
      (setattr_step ino_of q ib c).cache.setattr.atime = c.setattr.atime ∧
      (setattr_step ino_of q ib c).cache.setattr.mtime = c.setattr.mtime) := by
  constructor
  · have hrun : run_firings ino_of s [f1, f2]
        = (setattr_step ino_of f2.parm1 f2.iattr
            (setattr_step ino_of f1.parm1 f1.iattr s).cache).cache := rfl
    rw [hrun, h1, h2]
    have hstep1 := setattr_step_time_write ino_of f1.parm1 a1 s hd ht1
    have hcap := setattr_step_capture ino_of f1.parm1 (some a1) s hk hd
    have hd1 : (setattr_step ino_of f1.parm1 (some a1) s).cache.setattr.dentry ≠ 0 := by
      rw [hcap.1]; exact hp
    have hfr := setattr_step_dentry_set_frame ino_of f2.parm1 (some a2) _ hd1
    exact ⟨by rw [hfr.2.2.1, hstep1.1], by rw [hfr.2.2.2.1, hstep1.2]⟩
  · intro q ib c hc
    have hfr := setattr_step_dentry_set_frame ino_of q ib c hc
    exact ⟨hfr.2.2.1, hfr.2.2.2.1⟩

/-- Claim C3 (amended), witness: on a fresh chown context, time firings
(1,2) then (3,4) leave the first firing's timestamps. -/
theorem C3_timestamps_first_firing_wins_witness :
    ((run_firings (fun d => d)
        { type := event_type.EVENT_CHOWN,
          setattr := { dentry := 0, path_key := { ino := 0, mount_id := 3 },
                       group := none, atime := none, mtime := none } }
        [{ parm1 := 42, iattr := some { ia_valid := 131072, ia_gid := 0, ia_atime := 1, ia_mtime := 2 } },
         { parm1 := 42, iattr := some { ia_valid := 131072, ia_gid := 0, ia_atime := 3, ia_mtime := 4 } }]).setattr.atime
      = some 1 ∧
     (run_firings (fun d => d)
        { type := event_type.EVENT_CHOWN,
          setattr := { dentry := 0, path_key := { ino := 0, mount_id := 3 },
                       group := none, atime := none, mtime := none } }
        [{ parm1 := 42, iattr := some { ia_valid := 131072, ia_gid := 0, ia_atime := 1, ia_mtime := 2 } },
         { parm1 := 42, iattr := some { ia_valid := 131072, ia_gid := 0, ia_atime := 3, ia_mtime := 4 } }]).setattr.mtime
      = some 2) ∧
    (∀ (q : Nat) (ib : Option iattr) (c : syscall_cache_t), c.setattr.dentry ≠ 0 →
      (setattr_step (fun d => d) q ib c).cache.setattr.atime = c.setattr.atime ∧
      (setattr_step (fun d => d) q ib c).cache.setattr.mtime = c.setattr.mtime) :=
  C3_timestamps_first_firing_wins (fun d => d)
    { type := event_type.EVENT_CHOWN,
      setattr := { dentry := 0, path_key := { ino := 0, mount_id := 3 },
                   group := none, atime := none, mtime := none } }
    { parm1 := 42, iattr := some { ia_valid := 131072, ia_gid := 0, ia_atime := 1, ia_mtime := 2 } }
    { parm1 := 42, iattr := some { ia_valid := 131072, ia_gid := 0, ia_atime := 3, ia_mtime := 4 } }
    { ia_valid := 131072, ia_gid := 0, ia_atime := 1, ia_mtime := 2 }
    { ia_valid := 131072, ia_gid := 0, ia_atime := 3, ia_mtime := 4 }
    (by decide) rfl (by decide) rfl rfl (by decide) (by decide)

/-- Claim C4: once the context's dentry is non-null, every later sequence
of firings leaves both the dentry and the path key unchanged — they are
populated at most once per context. -/
theorem C4_dentry_path_key_at_most_once (ino_of : Nat → Nat) (s : syscall_cache_t)
    (fs : List firing_t) (h : s.setattr.dentry ≠ 0) :
    (run_firings ino_of s fs).setattr.dentry = s.setattr.dentry ∧
    (run_firings ino_of s fs).setattr.path_key = s.setattr.path_key :=
  run_firings_dentry_set_frame ino_of s fs h

/-- Claim C4, witness: a chown context with dentry 42 keeps dentry and path
key across two further firings that carry gid and time bits. -/
theorem C4_dentry_path_key_at_most_once_witness :
    (run_firings (fun d => d)
        { type := event_type.EVENT_CHOWN,
          setattr := { dentry := 42, path_key := { ino := 42, mount_id := 3 },
                       group := none, atime := none, mtime := none } }
        [{ parm1 := 50, iattr := some { ia_valid := 4, ia_gid := 7, ia_atime := 0, ia_mtime := 0 } },
         { parm1 := 51, iattr := some { ia_valid := 131072, ia_gid := 0, ia_atime := 9, ia_mtime := 9 } }]).setattr.dentry
      = ({ type := event_type.EVENT_CHOWN,
           setattr := { dentry := 42, path_key := { ino := 42, mount_id := 3 },
                        group := none, atime := none, mtime := none } } : syscall_cache_t).setattr.dentry ∧
    (run_firings (fun d => d)
        { type := event_type.EVENT_CHOWN,
          setattr := { dentry := 42, path_key := { ino := 42, mount_id := 3 },
                       group := none, atime := none, mtime := none } }
        [{ parm1 := 50, iattr := some { ia_valid := 4, ia_gid := 7, ia_atime := 0, ia_mtime := 0 } },
         { parm1 := 51, iattr := some { ia_valid := 131072, ia_gid := 0, ia_atime := 9, ia_mtime := 9 } }]).setattr.path_key
      = ({ type := event_type.EVENT_CHOWN,
           setattr := { dentry := 42, path_key := { ino := 42, mount_id := 3 },
                        group := none, atime := none, mtime := none } } : syscall_cache_t).setattr.path_key :=
  C4_dentry_path_key_at_most_once (fun d => d)
    { type := event_type.EVENT_CHOWN,
      setattr := { dentry := 42, path_key := { ino := 42, mount_id := 3 },
                   group := none, atime := none, mtime := none } }
    [{ parm1 := 50, iattr := some { ia_valid := 4, ia_gid := 7, ia_atime := 0, ia_mtime := 0 } },
     { parm1 := 51, iattr := some { ia_valid := 131072, ia_gid := 0, ia_atime := 9, ia_mtime := 9 } }]
    (by decide)

/-- Claim C5: in a firing with an active context, path resolution is
triggered if and only if the context's kind is EVENT_UTIME, EVENT_CHMOD or
EVENT_CHOWN and the dentry is not yet populated; and in that case the hook
stores the primary argument as the dentry, derives the path-key inode from
it, and resolves exactly that dentry and path key. -/
theorem C5_capture_and_resolution_iff (ino_of : Nat → Nat) (p : Nat)
    (ia : Option iattr) (s : syscall_cache_t) :
    ((setattr_step ino_of p ia s).resolved.isSome = true ↔
      (is_setattr_kind s.type ∧ s.setattr.dentry = 0)) ∧
    (is_setattr_kind s.type → s.setattr.dentry = 0 →
      (setattr_step ino_of p ia s).cache.setattr.dentry = p ∧
      (setattr_step ino_of p ia s).cache.setattr.path_key.ino = ino_of p ∧
      (setattr_step ino_of p ia s).resolved
        = some (p, (setattr_step ino_of p ia s).cache.setattr.path_key)) := by
  constructor
  · constructor
    · intro hs
      by_contra hn
      rw [setattr_step_resolved_none ino_of p ia s hn] at hs
      exact Bool.false_ne_true hs
    · rintro ⟨hk, hd⟩
      rw [(setattr_step_capture ino_of p ia s hk hd).2.2]
      rfl
  · intro hk hd
    exact setattr_step_capture ino_of p ia s hk hd

/-- Claim C5, witness: on a fresh utime context with dentry argument 42 and
a NULL iattr, the hook captures dentry 42, derives its inode, and triggers
resolution; the iff holds at this input. -/
theorem C5_capture_and_resolution_iff_witness :
    (((setattr_step (fun d => d + 100) 42 none
        { type := event_type.EVENT_UTIME,
          setattr := { dentry := 0, path_key := { ino := 0, mount_id := 3 },
                       group := none, atime := none, mtime := none } }).resolved.isSome = true ↔
      (is_setattr_kind event_type.EVENT_UTIME ∧ (0 : Nat) = 0)) ∧
    (is_setattr_kind event_type.EVENT_UTIME → (0 : Nat) = 0 →
      (setattr_step (fun d => d + 100) 42 none
        { type := event_type.EVENT_UTIME,
          setattr := { dentry := 0, path_key := { ino := 0, mount_id := 3 },
                       group := none, atime := none, mtime := none } }).cache.setattr.dentry = 42 ∧
      (setattr_step (fun d => d + 100) 42 none
        { type := event_type.EVENT_UTIME,
          setattr := { dentry := 0, path_key := { ino := 0, mount_id := 3 },
                       group := none, atime := none, mtime := none } }).cache.setattr.path_key.ino = (fun d => d + 100) 42 ∧
      (setattr_step (fun d => d + 100) 42 none
        { type := event_type.EVENT_UTIME,
          setattr := { dentry := 0, path_key := { ino := 0, mount_id := 3 },
                       group := none, atime := none, mtime := none } }).resolved
        = some (42, (setattr_step (fun d => d + 100) 42 none
            { type := event_type.EVENT_UTIME,
              setattr := { dentry := 0, path_key := { ino := 0, mount_id := 3 },
                           group := none, atime := none, mtime := none } }).cache.setattr.path_key))) :=
  C5_capture_and_resolution_iff (fun d => d + 100) 42 none
    { type := event_type.EVENT_UTIME,
      setattr := { dentry := 0, path_key := { ino := 0, mount_id := 3 },
                   group := none, atime := none, mtime := none } }

/-- Claim C6: when no active context exists for the calling unit, the hook
returns 0 immediately, leaving the store exactly as it was and triggering
no resolution. -/
theorem C6_no_context_no_op (ino_of : Nat → Nat) (store : store_t) (tid p : Nat)
    (ia : Option iattr) (h : peek_syscall store tid = none) :
    kprobe__security_inode_setattr ino_of store tid p ia = (store, none, 0) := by
  unfold kprobe__security_inode_setattr
  rw [h]

/-- Claim C6, witness: the empty store is returned untouched. -/
theorem C6_no_context_no_op_witness :
    kprobe__security_inode_setattr (fun d => d) (fun _ => none) 7 42
        (some { ia_valid := 4, ia_gid := 1, ia_atime := 2, ia_mtime := 3 })
      = (fun _ => none, none, 0) :=
  C6_no_context_no_op (fun d => d) (fun _ => none) 7 42
    (some { ia_valid := 4, ia_gid := 1, ia_atime := 2, ia_mtime := 3 }) rfl

/-- Claim C7: when the iattr view is NULL, the firing leaves the group and
both timestamps unchanged, while the dentry-capture step still runs: on a
matching kind with no dentry yet, the dentry is captured and resolution is
triggered. -/
theorem C7_null_iattr_skips_fields_continues (ino_of : Nat → Nat) (p : Nat)
    (s : syscall_cache_t) :
    (setattr_step ino_of p none s).cache.setattr.group = s.setattr.group ∧
    (setattr_step ino_of p none s).cache.setattr.atime = s.setattr.atime ∧
    (setattr_step ino_of p none s).cache.setattr.mtime = s.setattr.mtime ∧
    (is_setattr_kind s.type → s.setattr.dentry = 0 →
      (setattr_step ino_of p none s).cache.setattr.dentry = p ∧
      (setattr_step ino_of p none s).resolved.isSome = true) := by
  refine ⟨(setattr_tail_fields ino_of p s).2.1, (setattr_tail_fields ino_of p s).2.2.1,
    (setattr_tail_fields ino_of p s).2.2.2.1, ?_⟩
  intro hk hd
  have h := setattr_step_capture ino_of p none s hk hd
  exact ⟨h.1, by rw [h.2.2]; rfl⟩

/-- Claim C7, witness: NULL iattr on a fresh chmod context with prior
group 9 and timestamps (5,6): all three stay, the dentry is captured and
resolution triggered. -/
theorem C7_null_iattr_skips_fields_continues_witness :
    ((setattr_step (fun d => d) 42 none
        { type := event_type.EVENT_CHMOD,
          setattr := { dentry := 0, path_key := { ino := 0, mount_id := 3 },
                       group := some 9, atime := some 5, mtime := some 6 } }
        |>.cache.setattr.group)
      = some 9 ∧
     (setattr_step (fun d => d) 42 none
        { type := event_type.EVENT_CHMOD,
          setattr := { dentry := 0, path_key := { ino := 0, mount_id := 3 },
                       group := some 9, atime := some 5, mtime := some 6 } }
        |>.cache.setattr.atime)
      = some 5 ∧
     (setattr_step (fun d => d) 42 none
        { type := event_type.EVENT_CHMOD,
          setattr := { dentry := 0, path_key := { ino := 0, mount_id := 3 },
                       group := some 9, atime := some 5, mtime := some 6 } }
        |>.cache.setattr.mtime)
      = some 6 ∧
     (is_setattr_kind event_type.EVENT_CHMOD → (0 : Nat) = 0 →
       (setattr_step (fun d => d) 42 none
          { type := event_type.EVENT_CHMOD,
            setattr := { dentry := 0, path_key := { ino := 0, mount_id := 3 },
                         group := some 9, atime := some 5, mtime := some 6 } }
          |>.cache.setattr.dentry)
        = 42 ∧
       (setattr_step (fun d => d) 42 none
          { type := event_type.EVENT_CHMOD,
            setattr := { dentry := 0, path_key := { ino := 0, mount_id := 3 },
                         group := some 9, atime := some 5, mtime := some 6 } }
          |>.resolved.isSome)
        = true)) := by
  exact C7_null_iattr_skips_fields_continues (fun d => d) 42
    { type := event_type.EVENT_CHMOD,
      setattr := { dentry := 0, path_key := { ino := 0, mount_id := 3 },
                   group := some 9, atime := some 5, mtime := some 6 } }

/-- Claim C8: the two timestamps are written together — each firing either
leaves both unchanged or sets both from the same iattr — so across any
sequence of firings, if access and modify start equally populated they end
equally populated. -/
theorem C8_times_populated_together (ino_of : Nat → Nat) (s : syscall_cache_t)
    (fs : List firing_t)
    (h : s.setattr.atime.isSome = s.setattr.mtime.isSome) :
    (run_firings ino_of s fs).setattr.atime.isSome
      = (run_firings ino_of s fs).setattr.mtime.isSome ∧
    (∀ (q : Nat) (ib : Option iattr) (c : syscall_cache_t),
      ((setattr_step ino_of q ib c).cache.setattr.atime = c.setattr.atime ∧
       (setattr_step ino_of q ib c).cache.setattr.mtime = c.setattr.mtime) ∨
      (∃ a : iattr, ib = some a ∧
       (setattr_step ino_of q ib c).cache.setattr.atime = some a.ia_atime ∧
       (setattr_step ino_of q ib c).cache.setattr.mtime = some a.ia_mtime)) := by
  refine ⟨?_, fun q ib c => setattr_step_times_together ino_of q ib c⟩
  induction fs generalizing s with
  | nil => exact h
  | cons f fs ih =>
    rw [run_firings_cons]
    apply ih
    rcases setattr_step_times_together ino_of f.parm1 f.iattr s with hfr | ⟨a, _, ha, hm⟩
    · rw [hfr.1, hfr.2]; exact h
    · rw [ha, hm]
      rfl

/-- Claim C8, witness: a fresh chown context after a gid-only firing and a
time firing still has the two timestamps equally populated. -/
theorem C8_times_populated_together_witness :
    (run_firings (fun d => d)
        { type := event_type.EVENT_CHOWN,
          setattr := { dentry := 0, path_key := { ino := 0, mount_id := 3 },
                       group := none, atime := none, mtime := none } }
        [{ parm1 := 42, iattr := some { ia_valid := 4, ia_gid := 7, ia_atime := 0, ia_mtime := 0 } },
         { parm1 := 42, iattr := some { ia_valid := 131072, ia_gid := 0, ia_atime := 1, ia_mtime := 2 } }]).setattr.atime.isSome
      = (run_firings (fun d => d)
        { type := event_type.EVENT_CHOWN,
          setattr := { dentry := 0, path_key := { ino := 0, mount_id := 3 },
                       group := none, atime := none, mtime := none } }
        [{ parm1 := 42, iattr := some { ia_valid := 4, ia_gid := 7, ia_atime := 0, ia_mtime := 0 } },
         { parm1 := 42, iattr := some { ia_valid := 131072, ia_gid := 0, ia_atime := 1, ia_mtime := 2 } }]).setattr.mtime.isSome ∧
    (∀ (q : Nat) (ib : Option iattr) (c : syscall_cache_t),
      ((setattr_step (fun d => d) q ib c).cache.setattr.atime = c.setattr.atime ∧
       (setattr_step (fun d => d) q ib c).cache.setattr.mtime = c.setattr.mtime) ∨
      (∃ a : iattr, ib = some a ∧
       (setattr_step (fun d => d) q ib c).cache.setattr.atime = some a.ia_atime ∧
       (setattr_step (fun d => d) q ib c).cache.setattr.mtime = some a.ia_mtime)) :=
  C8_times_populated_together (fun d => d)
    { type := event_type.EVENT_CHOWN,
      setattr := { dentry := 0, path_key := { ino := 0, mount_id := 3 },
                   group := none, atime := none, mtime := none } }
    [{ parm1 := 42, iattr := some { ia_valid := 4, ia_gid := 7, ia_atime := 0, ia_mtime := 0 } },
     { parm1 := 42, iattr := some { ia_valid := 131072, ia_gid := 0, ia_atime := 1, ia_mtime := 2 } }]
    rfl

/-- Claim C9: for a context whose kind is not EVENT_UTIME / EVENT_CHMOD /
EVENT_CHOWN (and whose dentry starts unpopulated, which this hook then
never populates), every time-touch firing overwrites the timestamps: the
final values are the LAST such firing's, whatever came before. -/
theorem C9_non_matching_kind_times_last_writer (ino_of : Nat → Nat)
    (s : syscall_cache_t) (fs : List firing_t) (f : firing_t) (a : iattr)
    (hk : ¬ is_setattr_kind s.type) (hd : s.setattr.dentry = 0)
    (hia : f.iattr = some a)
    (ht : a.ia_valid &&& (ATTR_TOUCH ||| ATTR_ATIME_SET ||| ATTR_MTIME_SET) ≠ 0) :
    (run_firings ino_of s (fs ++ [f])).setattr.atime = some a.ia_atime ∧
    (run_firings ino_of s (fs ++ [f])).setattr.mtime = some a.ia_mtime := by
  rw [run_firings_snoc, hia]
  have hd2 : (run_firings ino_of s fs).setattr.dentry = 0 := by
    rw [(run_firings_no_kind_frame ino_of s fs hk).1]; exact hd
  exact setattr_step_time_write ino_of f.parm1 a _ hd2 ht

/-- Claim C9, witness: on a fresh EVENT_OPEN context, time firings (1,2)
then (3,4) end with the last firing's timestamps. -/
theorem C9_non_matching_kind_times_last_writer_witness :
    (run_firings (fun d => d)
        { type := event_type.EVENT_OPEN,
          setattr := { dentry := 0, path_key := { ino := 0, mount_id := 3 },
                       group := none, atime := none, mtime := none } }
        ([{ parm1 := 42, iattr := some { ia_valid := 131072, ia_gid := 0, ia_atime := 1, ia_mtime := 2 } }]
          ++ [{ parm1 := 42, iattr := some { ia_valid := 131072, ia_gid := 0, ia_atime := 3, ia_mtime := 4 } }])).setattr.atime
      = some 3 ∧
    (run_firings (fun d => d)
        { type := event_type.EVENT_OPEN,
          setattr := { dentry := 0, path_key := { ino := 0, mount_id := 3 },
                       group := none, atime := none, mtime := none } }
        ([{ parm1 := 42, iattr := some { ia_valid := 131072, ia_gid := 0, ia_atime := 1, ia_mtime := 2 } }]
          ++ [{ parm1 := 42, iattr := some { ia_valid := 131072, ia_gid := 0, ia_atime := 3, ia_mtime := 4 } }])).setattr.mtime
      = some 4 :=
  C9_non_matching_kind_times_last_writer (fun d => d)
    { type := event_type.EVENT_OPEN,
      setattr := { dentry := 0, path_key := { ino := 0, mount_id := 3 },
                   group := none, atime := none, mtime := none } }
    [{ parm1 := 42, iattr := some { ia_valid := 131072, ia_gid := 0, ia_atime := 1, ia_mtime := 2 } }]
    { parm1 := 42, iattr := some { ia_valid := 131072, ia_gid := 0, ia_atime := 3, ia_mtime := 4 } }
    { ia_valid := 131072, ia_gid := 0, ia_atime := 3, ia_mtime := 4 }
    (by decide) rfl rfl (by decide)

/-- Claim C10: a firing of the hook never creates or destroys a context —
every slot of the store is occupied after exactly when it was occupied
before — and never modifies any context's kind. -/
theorem C10_frame_no_create_no_destroy_no_kind_change (ino_of : Nat → Nat)
    (store : store_t) (tid p : Nat) (ia : Option iattr) :
    (∀ t, ((kprobe__security_inode_setattr ino_of store tid p ia).1 t).isSome
        = (store t).isSome) ∧
    (∀ t c, store t = some c →
      ∃ c2, (kprobe__security_inode_setattr ino_of store tid p ia).1 t = some c2 ∧
            c2.type = c.type) := by
  unfold kprobe__security_inode_setattr
  cases hpeek : peek_syscall store tid with
  | none =>
    exact ⟨fun t => rfl, fun t c hc => ⟨c, hc, rfl⟩⟩
  | some syscall =>
    have hst : store tid = some syscall := hpeek
    constructor
    · intro t
      by_cases hteq : t = tid
      · subst hteq
        show (if t = t then some (setattr_step ino_of p ia syscall).cache
            else store t).isSome = (store t).isSome
        rw [if_pos rfl, hst]
        rfl
      · show (if t = tid then _ else store t).isSome = (store t).isSome
        rw [if_neg hteq]
    · intro t c hc
      by_cases hteq : t = tid
      · subst hteq
        refine ⟨(setattr_step ino_of p ia syscall).cache, ?_, ?_⟩
        · show (if t = t then some (setattr_step ino_of p ia syscall).cache else store t)
            = some (setattr_step ino_of p ia syscall).cache
          rw [if_pos rfl]
        · rw [setattr_step_type]
          rw [hst] at hc
          injection hc with hc
          rw [hc]
      · refine ⟨c, ?_, rfl⟩
        show (if t = tid then _ else store t) = some c
        rw [if_neg hteq]
        exact hc

/-- Claim C10, witness: a one-slot store holding a chown context for
unit 5 keeps the same occupied slots and kind after a firing on unit 5. -/
theorem C10_frame_witness :
    (∀ t, ((kprobe__security_inode_setattr (fun d => d)
        (fun t => if t = 5 then
          some { type := event_type.EVENT_CHOWN,
                 setattr := { dentry := 0, path_key := { ino := 0, mount_id := 3 },
                              group := none, atime := none, mtime := none } }
          else none) 5 42
        (some { ia_valid := 4, ia_gid := 7, ia_atime := 0, ia_mtime := 0 })).1 t).isSome
      = ((fun t => if t = 5 then
          some { type := event_type.EVENT_CHOWN,
                 setattr := { dentry := 0, path_key := { ino := 0, mount_id := 3 },
                              group := none, atime := none, mtime := none } }
          else none : store_t) t).isSome) ∧
    (∀ t c, (fun t => if t = 5 then
          some { type := event_type.EVENT_CHOWN,
                 setattr := { dentry := 0, path_key := { ino := 0, mount_id := 3 },
                              group := none, atime := none, mtime := none } }
          else none : store_t) t = some c →
      ∃ c2, (kprobe__security_inode_setattr (fun d => d)
        (fun t => if t = 5 then
          some { type := event_type.EVENT_CHOWN,
                 setattr := { dentry := 0, path_key := { ino := 0, mount_id := 3 },
                              group := none, atime := none, mtime := none } }
          else none) 5 42
        (some { ia_valid := 4, ia_gid := 7, ia_atime := 0, ia_mtime := 0 })).1 t = some c2 ∧
            c2.type = c.type) :=
  C10_frame_no_create_no_destroy_no_kind_change (fun d => d)
    (fun t => if t = 5 then
      some { type := event_type.EVENT_CHOWN,
             setattr := { dentry := 0, path_key := { ino := 0, mount_id := 3 },
                          group := none, atime := none, mtime := none } }
      else none) 5 42
    (some { ia_valid := 4, ia_gid := 7, ia_atime := 0, ia_mtime := 0 })

end SetattrProbe
